import Mathlib

/-!
Verification of the JanMat vote and signature ledger.

The definitions below are a shallow embedding of the backend controllers
(`VoteController.ts`, `PetitionController.ts`, `PollController.ts`), the
mongoose schemas (`Poll`, `Vote`, `Petition`), and the results route.
Timestamps are modelled as integers (milliseconds), document ids as strings,
and the mongo database as explicit lists of documents.  Each controller
action becomes a function from a database state (plus request data) to a
typed result together with the successor state.  The mongoose save of a
freshly built Vote document hits the unique compound index on
(userId, pollId) declared in the Vote schema; that store-level step is
modelled separately from the application-level validation phase so that the
interleaving of two concurrent requests can be expressed.
-/

namespace JanMat

/-- A poll option as in the OptionSchema: an id and display text. -/
structure PollOption where
  id : String
  text : String
deriving Repr, DecidableEq

/-- A poll document (PollSchema): options, active flag, start and end
timestamps, and the cached total-vote counter. -/
structure Poll where
  pid : String
  options : List PollOption
  isActive : Bool
  startDate : Int
  endDate : Int
  totalVotes : Nat
deriving Repr, DecidableEq

/-- A vote document (VoteSchema), with the demographic metadata flattened. -/
structure Vote where
  vid : String
  userId : String
  pollId : String
  selectedOption : String
  rating : Option Int
  emoji : Option String
  state : Option String
  city : Option String
  ageGroup : Option String
  gender : Option String
  mtimestamp : Int
deriving Repr, DecidableEq

/-- The petition status enumeration of the Petition schema. -/
inductive PStatus
  | active
  | submitted
  | resolved
  | rejected
deriving Repr, DecidableEq

/-- The schema enum string of a petition status. -/
def PStatus.toCode : PStatus → String
  | .active => "active"
  | .submitted => "submitted"
  | .resolved => "resolved"
  | .rejected => "rejected"

/-- A supporters array entry of the Petition schema. -/
structure Supporter where
  userId : String
  signedAt : Int
  message : Option String
deriving Repr, DecidableEq

/-- A timeline array entry of the Petition schema. -/
structure TimelineEntry where
  event : String
  date : Int
  details : Option String
deriving Repr, DecidableEq

/-- A petition document (PetitionSchema), restricted to the fields the
ledger operations read or write. -/
structure Petition where
  petid : String
  status : PStatus
  signatures : Nat
  signaturesRequired : Nat
  supporters : List Supporter
  timeline : List TimelineEntry
  adminNotes : Option String
deriving Repr, DecidableEq

/-- The database: the polls, votes and petitions collections. -/
structure DB where
  polls : List Poll
  votes : List Vote
  petitions : List Petition
deriving Repr, DecidableEq

/-- Poll.findById. -/
def findPoll (db : DB) (id : String) : Option Poll :=
  db.polls.find? (fun p => decide (p.pid = id))

/-- Vote.findById. -/
def findVoteById (db : DB) (id : String) : Option Vote :=
  db.votes.find? (fun v => decide (v.vid = id))

/-- Vote.findOne on userId and pollId. -/
def findVoteByUserPoll (db : DB) (userId pollId : String) : Option Vote :=
  db.votes.find? (fun v => decide (v.userId = userId ∧ v.pollId = pollId))

/-- Petition.findById. -/
def findPetition (db : DB) (id : String) : Option Petition :=
  db.petitions.find? (fun p => decide (p.petid = id))

/-- Saving a loaded poll document back: replaces the document with the
matching id. -/
def setPoll (db : DB) (p : Poll) : DB :=
  { db with polls := db.polls.map (fun q => if q.pid = p.pid then p else q) }

/-- Saving a loaded petition document back: replaces the document with the
matching id. -/
def setPetition (db : DB) (p : Petition) : DB :=
  { db with petitions := db.petitions.map (fun q => if q.petid = p.petid then p else q) }

/-- The typed outcomes of the controller actions; each constructor stands
for one distinct HTTP error response of the controllers, and
serverFailure is the generic catch-all 500 response. -/
inductive ApiError
  | missingFields
  | pollNotFound
  | pollNotActive
  | pollEnded
  | invalidOption
  | alreadyVoted
  | voteNotFound
  | pollClosed
  | userIdRequired
  | petitionNotFound
  | petitionNotActive
  | alreadySigned
  | serverFailure
deriving Repr, DecidableEq

/-- Number of vote rows referencing a poll. -/
def voteCount (db : DB) (pollId : String) : Nat :=
  (db.votes.filter (fun v => decide (v.pollId = pollId))).length

/-- The cached total-vote counter of a poll, when the poll exists. -/
def pollTotalOf (db : DB) (pollId : String) : Option Nat :=
  (findPoll db pollId).map Poll.totalVotes

/-- The request data of a castVote call, as read from req.body by
VoteController.castVote.  Absent body fields are none; the three required
string fields are falsy in JS when absent or empty. -/
structure CastReq where
  userId : String
  pollId : String
  selectedOption : String
  rating : Option Int
  emoji : Option String
  state : Option String
  city : Option String
  ageGroup : Option String
  gender : Option String
deriving Repr, DecidableEq

/-- The Vote document the controller builds from the request body before
saving it. -/
def builtVote (r : CastReq) (newVid : String) (now : Int) : Vote :=
  { vid := newVid, userId := r.userId, pollId := r.pollId,
    selectedOption := r.selectedOption, rating := r.rating,
    emoji := r.emoji, state := r.state, city := r.city,
    ageGroup := r.ageGroup, gender := r.gender, mtimestamp := now }

/-- The validation phase of VoteController.castVote: the required-field,
poll-existence, isActive, endDate, option-membership and prior-vote checks,
all of which only read the database snapshot passed in.  On success it
returns the Vote document the controller builds.  The code never compares
now against startDate, and the end check is now > endDate, so the instant
endDate itself is accepted; the rating field is not validated. -/
def castVoteValidate (snap : DB) (now : Int) (r : CastReq) (newVid : String) :
    Except ApiError Vote :=
  if r.userId = "" ∨ r.pollId = "" ∨ r.selectedOption = "" then
    .error .missingFields
  else
    match findPoll snap r.pollId with
    | none => .error .pollNotFound
    | some poll =>
      if ¬ poll.isActive then .error .pollNotActive
      else if now > poll.endDate then .error .pollEnded
      else if ¬ poll.options.any (fun o => decide (o.id = r.selectedOption)) then
        .error .invalidOption
      else
        match findVoteByUserPoll snap r.userId r.pollId with
        | some _ => .error .alreadyVoted
        | none => .ok (builtVote r newVid now)

/-- The store error surfaced by the mongo driver or mongoose: a unique
index violation, or a failed schema validation run before the write. -/
inductive StoreErr
  | duplicateKey
  | validationError
deriving Repr, DecidableEq

/-- The metadata.ageGroup enum of the Vote schema. -/
def ageGroupEnum : List String := ["18-25", "26-35", "36-45", "46-55", "56+"]

/-- The metadata.gender enum of the Vote schema. -/
def genderEnum : List String := ["Male", "Female", "Other", "Prefer not to say"]

/-- The Vote schema validators that mongoose runs on every vote.save():
rating, when present, must lie in [1,10] (min 1, max 10), and the optional
metadata.ageGroup and metadata.gender must belong to their enums; absent
optional fields pass. -/
def voteSchemaValid (v : Vote) : Bool :=
  (match v.rating with
   | none => true
   | some k => decide (1 ≤ k ∧ k ≤ 10)) &&
  (match v.ageGroup with
   | none => true
   | some a => ageGroupEnum.contains a) &&
  (match v.gender with
   | none => true
   | some g => genderEnum.contains g)

/-- The store-level insert performed by vote.save(): mongoose first runs
the Vote schema validators (a failure surfaces as a ValidationError), and
the insert then hits the unique compound index on (userId, pollId)
declared in the Vote schema, so a second vote for the same pair raises
DuplicateKey atomically. -/
def voteStoreInsert (db : DB) (v : Vote) : Except StoreErr DB :=
  if ¬ voteSchemaValid v then
    .error .validationError
  else if db.votes.any (fun w => decide (w.userId = v.userId ∧ w.pollId = v.pollId)) then
    .error .duplicateKey
  else
    .ok { db with votes := db.votes ++ [v] }

/-- The counter write of castVote: poll.totalVotes += 1 followed by
poll.save(), where the poll document (and hence the counter value written)
was loaded from the snapshot read during validation. -/
def pollSaveTotal (db : DB) (pollId : String) (newTotal : Nat) : DB :=
  match findPoll db pollId with
  | none => db
  | some p => setPoll db { p with totalVotes := newTotal }

/-- VoteController.castVote with the read snapshot made explicit: the
validation phase reads snap, while the vote insert and the poll counter
save apply to the current database db.  In a sequential execution
snap = db.  A DuplicateKey or a schema ValidationError raised by
vote.save() is caught by the generic catch handler of the controller,
which responds with the 500 serverFailure message, not with the
alreadyVoted or invalidOption messages. -/
def castVoteFrom (snap db : DB) (now : Int) (r : CastReq) (newVid : String) :
    Except ApiError Vote × DB :=
  match castVoteValidate snap now r newVid with
  | .error e => (.error e, db)
  | .ok v =>
    match voteStoreInsert db v with
    | .error _ => (.error .serverFailure, db)
    | .ok db1 =>
      match findPoll snap r.pollId with
      | none => (.ok v, db1)
      | some poll => (.ok v, pollSaveTotal db1 r.pollId (poll.totalVotes + 1))

/-- VoteController.castVote, sequential execution. -/
def castVote (db : DB) (now : Int) (r : CastReq) (newVid : String) :
    Except ApiError Vote × DB :=
  castVoteFrom db db now r newVid

/-- The successive store states of a sequential castVote call: the entry
state, the state after the vote insert, and the state after the separate
poll counter save.  The vote insert and the counter write are two distinct
awaited store operations in the controller, not one transaction. -/
def castVoteStates (db : DB) (now : Int) (r : CastReq) (newVid : String) : List DB :=
  match castVoteValidate db now r newVid with
  | .error _ => [db]
  | .ok v =>
    match voteStoreInsert db v with
    | .error _ => [db]
    | .ok db1 =>
      match findPoll db r.pollId with
      | none => [db, db1]
      | some poll => [db, db1, pollSaveTotal db1 r.pollId (poll.totalVotes + 1)]

/-- Two castVote requests for the same participant racing on the same poll:
both validation phases read the initial snapshot db0 (neither sees the
other), then the store inserts land in order.  This is the interleaving the
check-then-insert pattern admits. -/
def racedCastVotes (db0 : DB) (now : Int) (r1 r2 : CastReq) (vid1 vid2 : String) :
    Except ApiError Vote × Except ApiError Vote × DB :=
  let a := castVoteFrom db0 db0 now r1 vid1
  let b := castVoteFrom db0 a.2 now r2 vid2
  (a.1, b.1, b.2)

/-- The modified vote document built by updateVote before saving it: the
old option is kept when the request option is absent or empty (JS falsy),
and rating and emoji are assigned from the request. -/
def updatedVote (vote : Vote) (selectedOption : Option String)
    (rating : Option Int) (emoji : Option String) : Vote :=
  { vote with
    selectedOption :=
      (match selectedOption with
       | none => vote.selectedOption
       | some s => if s = "" then vote.selectedOption else s),
    rating := rating, emoji := emoji }

/-- VoteController.updateVote: looks the vote up by id only — the request
carries no caller identity and none is checked — requires the poll to be
active and not past endDate, then saves the modified vote; vote.save()
runs the Vote schema validators, so an out-of-range rating or a bad
demographic enum throws, which the catch handler reports as the 500
serverFailure with the vote unchanged. -/
def updateVote (db : DB) (now : Int) (voteId : String)
    (selectedOption : Option String) (rating : Option Int) (emoji : Option String) :
    Except ApiError Vote × DB :=
  match findVoteById db voteId with
  | none => (.error .voteNotFound, db)
  | some vote =>
    match findPoll db vote.pollId with
    | none => (.error .pollNotFound, db)
    | some poll =>
      if ¬ poll.isActive ∨ now > poll.endDate then (.error .pollClosed, db)
      else
        let v2 := updatedVote vote selectedOption rating emoji
        if ¬ voteSchemaValid v2 then (.error .serverFailure, db)
        else
          (.ok v2, { db with votes := db.votes.map (fun w => if w.vid = voteId then v2 else w) })

/-- VoteController.deleteVote: looks the vote up by id only (no caller
identity is checked), requires the poll to be active and not past endDate,
deletes the vote, and then writes the clamped decremented counter
Math.max(0, totalVotes - 1) as a separate poll save (Nat subtraction
models the clamp). -/
def deleteVote (db : DB) (now : Int) (voteId : String) : Except ApiError Unit × DB :=
  match findVoteById db voteId with
  | none => (.error .voteNotFound, db)
  | some vote =>
    match findPoll db vote.pollId with
    | none => (.error .pollNotFound, db)
    | some poll =>
      if ¬ poll.isActive ∨ now > poll.endDate then (.error .pollClosed, db)
      else
        let db1 := { db with votes := db.votes.filter (fun v => ¬ v.vid = voteId) }
        (.ok (), pollSaveTotal db1 vote.pollId (poll.totalVotes - 1))

/-- The supporters entry built for a new signature. -/
def newSupporter (u : String) (now : Int) (msg : Option String) : Supporter :=
  { userId := u, signedAt := now, message := msg }

/-- The timeline entry appended for a new signature at count n. -/
def newSignatureEntry (now : Int) (n : Nat) : TimelineEntry :=
  { event := "New Signature", date := now,
    details := some ("Total signatures reached: " ++ toString n) }

/-- The Petition schema validator touching a new supporter entry, run by
petition.save(): the optional message may be at most 500 characters. -/
def supporterSchemaValid (s : Supporter) : Bool :=
  match s.message with
  | none => true
  | some m => decide (m.length ≤ 500)

/-- The validation phase of PetitionController.signPetition: userId
required, petition must exist, status must be active, and the supporters
array of the loaded document must not already contain the user.  On
success it returns the supporter entry and timeline entry the controller
builds, plus the counter value it will write (snapshot signatures + 1).
The empty message is normalised to none as by message or undefined. -/
def signPetitionValidate (snap : DB) (now : Int) (petitionId userId : String)
    (message : Option String) : Except ApiError (Supporter × TimelineEntry × Nat) :=
  if userId = "" then .error .userIdRequired
  else
    match findPetition snap petitionId with
    | none => .error .petitionNotFound
    | some pet =>
      if ¬ pet.status = .active then .error .petitionNotActive
      else if pet.supporters.any (fun s => decide (s.userId = userId)) then
        .error .alreadySigned
      else
        let msg := match message with
          | some s => if s = "" then none else some s
          | none => none
        .ok (newSupporter userId now msg,
             newSignatureEntry now (pet.signatures + 1),
             pet.signatures + 1)

/-- The petition document state after a signature commit: the supporter
and timeline entries appended and the counter set to the written value. -/
def signedPetition (cur : Petition) (sup : Supporter) (tl : TimelineEntry)
    (n : Nat) : Petition :=
  { cur with supporters := cur.supporters ++ [sup],
             timeline := cur.timeline ++ [tl], signatures := n }

/-- The store write of a successful signPetition, i.e. petition.save():
mongoose turns the two array pushes into atomic push operations against
the current document and the plain numeric assignment into a set of the
value computed from the snapshot; no uniqueness constraint exists on the
supporters array. -/
def signStoreCommit (db : DB) (petitionId : String) (sup : Supporter)
    (tl : TimelineEntry) (newSignatures : Nat) : DB :=
  match findPetition db petitionId with
  | none => db
  | some cur => setPetition db (signedPetition cur sup tl newSignatures)

/-- PetitionController.signPetition with the read snapshot made explicit
(sequential execution has snap = db).  petition.save() validates the new
supporter entry; a failure is caught as the 500 serverFailure with the
petition unchanged. -/
def signPetitionFrom (snap db : DB) (now : Int) (petitionId userId : String)
    (message : Option String) : Except ApiError Unit × DB :=
  match signPetitionValidate snap now petitionId userId message with
  | .error e => (.error e, db)
  | .ok (sup, tl, n) =>
    if ¬ supporterSchemaValid sup then (.error .serverFailure, db)
    else (.ok (), signStoreCommit db petitionId sup tl n)

/-- PetitionController.signPetition, sequential execution. -/
def signPetition (db : DB) (now : Int) (petitionId userId : String)
    (message : Option String) : Except ApiError Unit × DB :=
  signPetitionFrom db db now petitionId userId message

/-- Two signPetition requests racing: both validation phases read the
initial snapshot db0, then the saves land in order.  Nothing at the store
level rejects the second save. -/
def racedSignPetition (db0 : DB) (now : Int) (petitionId u1 u2 : String) :
    Except ApiError Unit × Except ApiError Unit × DB :=
  let a := signPetitionFrom db0 db0 now petitionId u1 none
  let b := signPetitionFrom db0 a.2 now petitionId u2 none
  (a.1, b.1, b.2)

/-- The document written by updatePetitionStatus: the requested status and
admin notes plus an appended Status Updated timeline entry. -/
def statusUpdatedPetition (pet : Petition) (now : Int) (status : PStatus)
    (adminNotes : Option String) : Petition :=
  { pet with status := status, adminNotes := adminNotes,
             timeline := pet.timeline ++
               [{ event := "Status Updated", date := now,
                  details := some ("Status changed to " ++ status.toCode ++ " by admin") }] }

/-- PetitionController.updatePetitionStatus: findByIdAndUpdate writes the
requested status and adminNotes and pushes a Status Updated timeline entry
unconditionally — the current status is never consulted and no transition
table exists in the code. -/
def updatePetitionStatus (db : DB) (now : Int) (id : String) (status : PStatus)
    (adminNotes : Option String) : Except ApiError Petition × DB :=
  match findPetition db id with
  | none => (.error .petitionNotFound, db)
  | some pet =>
    (.ok (statusUpdatedPetition pet now status adminNotes),
     setPetition db (statusUpdatedPetition pet now status adminNotes))

/-- A per-option tally row as built by the results routes. -/
structure OptionResult where
  optionId : String
  optionText : String
  votes : Nat
  percentage : ℚ
deriving Repr, DecidableEq

/-- Whether a vote passes the optional demographic query filters of the
results routes (state, ageGroup, gender). -/
def matchesFilter (v : Vote) (fstate fage fgender : Option String) : Bool :=
  (match fstate with | none => true | some s => decide (v.state = some s)) &&
  (match fage with | none => true | some s => decide (v.ageGroup = some s)) &&
  (match fgender with | none => true | some s => decide (v.gender = some s))

/-- The filtered vote population of a results query. -/
def filteredVotes (db : DB) (pollId : String) (fstate fage fgender : Option String) :
    List Vote :=
  db.votes.filter (fun v => decide (v.pollId = pollId) && matchesFilter v fstate fage fgender)

/-- JS Math.round on the nonnegative values arising here: round half up. -/
def jsRound (q : ℚ) : Int := ⌊q + 1 / 2⌋

/-- Math.round (percentage * 100) / 100 of the results routes. -/
def round2 (q : ℚ) : ℚ := (jsRound (q * 100) : ℚ) / 100

/-- The per-option percentage before rounding: votes / total * 100 when the
total is positive, literal 0 otherwise. -/
def rawPercentage (k n : Nat) : ℚ :=
  if 0 < n then (k : ℚ) / (n : ℚ) * 100 else 0

/-- PollController.getPollResults (identical formula in the results
route): for each poll option, the count of filtered votes selecting it and
the two-decimal rounded percentage of the filtered total; none when the
poll is absent. -/
def getPollResults (db : DB) (pollId : String) (fstate fage fgender : Option String) :
    Option (List OptionResult) :=
  match findPoll db pollId with
  | none => none
  | some poll =>
    let votes := filteredVotes db pollId fstate fage fgender
    some (poll.options.map (fun o =>
      let k := (votes.filter (fun v => decide (v.selectedOption = o.id))).length
      { optionId := o.id, optionText := o.text, votes := k,
        percentage := round2 (rawPercentage k votes.length) }))

/-- The fixed milestone thresholds of the admin dashboard
(getMilestones in the petitions management component). -/
def milestoneThresholds : List Nat := [100, 500, 1000, 5000, 10000, 50000]

/-- getMilestones from the admin dashboard source: the number of
thresholds already reached by a signature count. -/
def getMilestones (signatures : Nat) : Nat :=
  (milestoneThresholds.filter (fun m => signatures ≥ m)).length

/-- Modelled from the spec: the Milestone Engine pure function Evaluate of
spec section 4.4 is not present as such in src — the nearest source code,
getMilestones above, counts reached thresholds for a single count — so the
two-count crossing function is taken from the spec text: the crossed list
holds the thresholds t with previousCount < t and t less-or-equal
newCount. -/
def Evaluate (previousCount newCount : Nat) (thresholds : List Nat) : List Nat :=
  thresholds.filter (fun t => previousCount < t && t ≤ newCount)

/-- Whether a controller result is the success response. -/
def succeeded {α : Type} : Except ApiError α → Bool
  | .ok _ => true
  | .error _ => false

/-- Counter consistency: every poll document caches exactly the number of
vote rows that reference it. -/
def Consistent (db : DB) : Prop :=
  ∀ p ∈ db.polls, p.totalVotes = voteCount db p.pid

instance (db : DB) : Decidable (Consistent db) := by
  unfold Consistent
  infer_instance

/-! Concrete fixtures used by the counterexample and witness theorems. -/

/-- A binary poll that is active with voting window 0 to 100. -/
def examplePoll : Poll :=
  { pid := "p1", options := [{ id := "yes", text := "Yes" }, { id := "no", text := "No" }],
    isActive := true, startDate := 0, endDate := 100, totalVotes := 0 }

/-- A well-formed cast request for the yes option of examplePoll. -/
def exampleReq : CastReq :=
  { userId := "u1", pollId := "p1", selectedOption := "yes", rating := none,
    emoji := none, state := none, city := none, ageGroup := none, gender := none }

/-- A database holding only examplePoll, with no votes yet. -/
def exampleDb : DB := { polls := [examplePoll], votes := [], petitions := [] }

/-- An existing vote by participant alice on examplePoll. -/
def aliceVote : Vote :=
  { vid := "v1", userId := "alice", pollId := "p1", selectedOption := "yes",
    rating := some 5, emoji := some "e", state := some "KA", city := none,
    ageGroup := none, gender := none, mtimestamp := 1 }

/-- The database after alice voted: counter and row count agree at 1. -/
def dbWithVote : DB :=
  { polls := [{ examplePoll with totalVotes := 1 }], votes := [aliceVote], petitions := [] }

/-- An active petition with no supporters. -/
def examplePetition : Petition :=
  { petid := "q1", status := .active, signatures := 0, signaturesRequired := 1000,
    supporters := [], timeline := [], adminNotes := none }

/-- A database holding only examplePetition. -/
def examplePetitionDb : DB := { polls := [], votes := [], petitions := [examplePetition] }

/-- A vote whose selected option zzz lies outside the option set of
examplePoll, as UpdateVote can produce. -/
def strayVote : Vote :=
  { aliceVote with vid := "v2", userId := "bob", selectedOption := "zzz" }

/-- A database where one of the two votes on examplePoll references the
foreign option zzz. -/
def strayDb : DB :=
  { polls := [{ examplePoll with totalVotes := 2 }], votes := [aliceVote, strayVote],
    petitions := [] }

/-- A database whose only poll opens in the future, at instant 50. -/
def futureStartDb : DB :=
  { polls := [{ examplePoll with startDate := 50 }], votes := [], petitions := [] }

/-! Basic lemmas about the store primitives. -/

lemma findPetition_some {db : DB} {id : String} {pet : Petition}
    (h : findPetition db id = some pet) : pet ∈ db.petitions ∧ pet.petid = id := by
  unfold findPetition at h
  refine ⟨List.mem_of_find?_eq_some h, ?_⟩
  have := List.find?_some h
  exact of_decide_eq_true this

lemma findPoll_some {db : DB} {id : String} {p : Poll}
    (h : findPoll db id = some p) : p ∈ db.polls ∧ p.pid = id := by
  unfold findPoll at h
  refine ⟨List.mem_of_find?_eq_some h, ?_⟩
  have := List.find?_some h
  exact of_decide_eq_true this

lemma find?_replace (l : List Petition) (id : String) (pet p : Petition)
    (hfind : l.find? (fun q => decide (q.petid = id)) = some pet)
    (hid : p.petid = id) :
    (l.map (fun q => if q.petid = p.petid then p else q)).find?
      (fun q => decide (q.petid = id)) = some p := by
  induction l with
  | nil => simp at hfind
  | cons a l ih =>
    by_cases ha : a.petid = id
    · have hap : a.petid = p.petid := by rw [ha, hid]
      simp only [List.map_cons, if_pos hap]
      exact List.find?_cons_of_pos _ (by simp [hid])
    · have hap : ¬ a.petid = p.petid := by rw [hid]; exact ha
      rw [List.find?_cons_of_neg _ (by simp [ha])] at hfind
      simp only [List.map_cons, if_neg hap]
      rw [List.find?_cons_of_neg _ (by simp [ha])]
      exact ih hfind

/-- Claim C9: the Milestone Engine Evaluate is a pure function whose
crossed list holds exactly the thresholds t with
previousCount < t and t at most newCount; being a function of its
arguments it is deterministic, so two calls on the same inputs agree. -/
theorem c9_evaluate_milestones (previousCount newCount : Nat)
    (thresholds : List Nat) (t : Nat) :
    t ∈ Evaluate previousCount newCount thresholds ↔
      t ∈ thresholds ∧ previousCount < t ∧ t ≤ newCount := by
  simp [Evaluate, List.mem_filter]

/-- The spec-modelled Evaluate agrees with the source getMilestones
counter: on the dashboard threshold list, the number of thresholds newly
crossed between two counts is the difference of reached-threshold
counts. -/
theorem evaluate_consistent_with_getMilestones (prev newC : Nat) (h : prev ≤ newC) :
    (Evaluate prev newC milestoneThresholds).length + getMilestones prev =
      getMilestones newC := by
  unfold Evaluate getMilestones
  simp only [ge_iff_le]
  suffices H : ∀ ts : List Nat,
      (ts.filter (fun t => prev < t && t ≤ newC)).length
        + (ts.filter (fun m => decide (m ≤ prev))).length
        = (ts.filter (fun m => decide (m ≤ newC))).length from H milestoneThresholds
  intro ts
  induction ts with
  | nil => simp
  | cons a ts ih =>
    simp only [List.filter_cons]
    by_cases h1 : prev < a <;> by_cases h2 : a ≤ newC <;>
      by_cases h3 : a ≤ prev <;>
      simp [h1, h2, h3] <;> omega

/-- Claim C2 counterexample: resolved to active is not one of the four
allowed transitions, yet updatePetitionStatus on a resolved petition
succeeds and changes the stored status to active instead of failing with
InvalidTransition and leaving the petition unchanged. -/
theorem c2_invalid_transition_counterexample :
    succeeded (updatePetitionStatus
        { polls := [], votes := [],
          petitions := [{ examplePetition with status := PStatus.resolved }] }
        9 "q1" PStatus.active none).1 = true ∧
    ((updatePetitionStatus
        { polls := [], votes := [],
          petitions := [{ examplePetition with status := PStatus.resolved }] }
        9 "q1" PStatus.active none).2.petitions.map Petition.status)
      = [PStatus.active] := by
  constructor <;> rfl

/-- Claim C2 (amended): updatePetitionStatus enforces no transition table —
for every existing petition and every requested status, whatever the
current status, it succeeds, writes the requested status and admin notes,
and appends a Status Updated timeline entry; no InvalidTransition failure
exists in the code. -/
theorem c2_update_status_amended (db : DB) (now : Int) (id : String)
    (st : PStatus) (notes : Option String) (pet : Petition)
    (hfind : findPetition db id = some pet) :
    (updatePetitionStatus db now id st notes).1 =
      Except.ok (statusUpdatedPetition pet now st notes) ∧
    findPetition (updatePetitionStatus db now id st notes).2 id =
      some (statusUpdatedPetition pet now st notes) := by
  have hid : (statusUpdatedPetition pet now st notes).petid = id := by
    have h2 := (findPetition_some hfind).2
    simpa [statusUpdatedPetition] using h2
  constructor
  · simp [updatePetitionStatus, hfind]
  · simp only [updatePetitionStatus, hfind]
    unfold findPetition setPetition at *
    exact find?_replace _ _ _ _ hfind hid

/-- Witness for Claim C2: the amended theorem applied to the concrete
active example petition moved to submitted. -/
theorem c2_update_status_witness :
    (updatePetitionStatus examplePetitionDb 9 "q1" PStatus.submitted none).1 =
      Except.ok (statusUpdatedPetition examplePetition 9 PStatus.submitted none) ∧
    findPetition (updatePetitionStatus examplePetitionDb 9 "q1" PStatus.submitted none).2 "q1" =
      some (statusUpdatedPetition examplePetition 9 PStatus.submitted none) :=
  c2_update_status_amended examplePetitionDb 9 "q1" PStatus.submitted none
    examplePetition rfl

/-- Claim C10 counterexample: an update of the stored alice vote carrying
rating 42 — the poll is open and every controller check passes — is
rejected by the Vote schema validators when vote.save() runs, surfacing as
the 500 serverFailure with the database unchanged: the rating overwrite is
not unconditional. -/
theorem c10_rating_overwrite_counterexample :
    (updateVote dbWithVote 5 "v1" none (some 42) none).1 =
      Except.error ApiError.serverFailure ∧
    (updateVote dbWithVote 5 "v1" none (some 42) none).2 = dbWithVote :=
  ⟨rfl, rfl⟩

/-- Claim C10 (amended): when the modified vote passes the Vote schema
validation — rating absent or in [1,10] and valid demographic enums — a
successful updateVote keeps the previous option when the request option is
absent or empty, overwrites rating and emoji with the supplied values
(omitted values erase the stored fields), and leaves every other field of
the vote as well as the polls (hence the cached counter) and petitions
collections unchanged; when the modified vote fails the schema validation,
the save is rejected as the 500 serverFailure and nothing changes. -/
theorem c10_update_vote_frame (db : DB) (now : Int) (voteId : String)
    (sel : Option String) (rt : Option Int) (em : Option String)
    (v : Vote) (poll : Poll)
    (hv : findVoteById db voteId = some v)
    (hp : findPoll db v.pollId = some poll)
    (hact : poll.isActive = true)
    (hend : now ≤ poll.endDate) :
    (voteSchemaValid (updatedVote v sel rt em) = true →
      (updateVote db now voteId sel rt em).1 =
        Except.ok (updatedVote v sel rt em) ∧
      (updateVote db now voteId sel rt em).2.polls = db.polls ∧
      (updateVote db now voteId sel rt em).2.petitions = db.petitions) ∧
    (voteSchemaValid (updatedVote v sel rt em) = false →
      (updateVote db now voteId sel rt em).1 =
        Except.error ApiError.serverFailure ∧
      (updateVote db now voteId sel rt em).2 = db) := by
  have hcond : ¬ (poll.isActive = false ∨ poll.endDate < now) := by
    push_neg
    exact ⟨by simp [hact], by omega⟩
  constructor
  · intro hsv
    refine ⟨?_, ?_, ?_⟩ <;> simp [updateVote, hv, hp, hcond, hsv]
  · intro hsv
    refine ⟨?_, ?_⟩ <;> simp [updateVote, hv, hp, hcond, hsv]

/-- Witness for Claim C10: the frame theorem applied to the stored alice
vote, updating to the no option while omitting rating and emoji — the
modified vote passes the schema validation, so the overwrite happens. -/
theorem c10_update_vote_witness :
    (updateVote dbWithVote 5 "v1" (some "no") none none).1 =
      Except.ok (updatedVote aliceVote (some "no") none none) ∧
    (updateVote dbWithVote 5 "v1" (some "no") none none).2.polls = dbWithVote.polls ∧
    (updateVote dbWithVote 5 "v1" (some "no") none none).2.petitions = dbWithVote.petitions :=
  (c10_update_vote_frame dbWithVote 5 "v1" (some "no") none none aliceVote
    { examplePoll with totalVotes := 1 } rfl rfl rfl (by decide)).1 rfl

/-- Claim C6 counterexample: the vote stored in dbWithVote belongs to
alice, the poll is open, and a call made by any other participant — the
controllers receive no caller identity and check none — still succeeds,
for updateVote and for deleteVote alike, instead of failing. -/
theorem c6_no_participant_check_counterexample :
    (¬ ∀ (caller : String) (db : DB) (now : Int) (voteId : String)
        (sel : Option String) (rt : Option Int) (em : Option String) (v : Vote),
        findVoteById db voteId = some v →
        succeeded (updateVote db now voteId sel rt em).1 = true →
        caller = v.userId) ∧
    (¬ ∀ (caller : String) (db : DB) (now : Int) (voteId : String) (v : Vote),
        findVoteById db voteId = some v →
        succeeded (deleteVote db now voteId).1 = true →
        caller = v.userId) := by
  constructor
  · intro h
    have hm := h "mallory" dbWithVote 5 "v1" none none none aliceVote rfl rfl
    exact absurd hm (by decide)
  · intro h
    have hm := h "mallory" dbWithVote 5 "v1" aliceVote rfl rfl
    exact absurd hm (by decide)

/-- Claim C6 (amended): updateVote succeeds exactly when the referenced
poll is active, now is at most its endDate, and the modified vote passes
the Vote schema validation — no participant-identity condition enters,
since the request carries none and the code checks none; deleteVote
succeeds exactly when the poll is active and now is at most its endDate;
and whenever either fails the database, hence the vote and the poll
counter, is left unchanged. -/
theorem c6_update_retract_amended (db : DB) (now : Int) (voteId : String)
    (sel : Option String) (rt : Option Int) (em : Option String)
    (v : Vote) (poll : Poll)
    (hv : findVoteById db voteId = some v)
    (hp : findPoll db v.pollId = some poll) :
    (succeeded (updateVote db now voteId sel rt em).1 = true ↔
      poll.isActive = true ∧ now ≤ poll.endDate ∧
        voteSchemaValid (updatedVote v sel rt em) = true) ∧
    (succeeded (deleteVote db now voteId).1 = true ↔
      poll.isActive = true ∧ now ≤ poll.endDate) ∧
    (succeeded (updateVote db now voteId sel rt em).1 = false →
      (updateVote db now voteId sel rt em).2 = db) ∧
    (succeeded (deleteVote db now voteId).1 = false →
      (deleteVote db now voteId).2 = db) := by
  by_cases hc : poll.isActive = false ∨ poll.endDate < now
  · have hrhs : ¬ (poll.isActive = true ∧ now ≤ poll.endDate) := by
      rintro ⟨ha, he⟩
      rcases hc with h | h
      · rw [ha] at h; cases h
      · omega
    have hrhs3 : ¬ (poll.isActive = true ∧ now ≤ poll.endDate ∧
        voteSchemaValid (updatedVote v sel rt em) = true) := by
      rintro ⟨ha, he, _⟩
      exact hrhs ⟨ha, he⟩
    refine ⟨?_, ?_, ?_, ?_⟩ <;>
      simp [updateVote, deleteVote, hv, hp, hc, succeeded, hrhs, hrhs3]
  · push_neg at hc
    obtain ⟨ha, he⟩ := hc
    have hact : poll.isActive = true := by
      cases hb : poll.isActive
      · exact absurd hb ha
      · rfl
    have hlt : ¬ poll.endDate < now := by omega
    by_cases hsv : voteSchemaValid (updatedVote v sel rt em) = true
    · refine ⟨?_, ?_, ?_, ?_⟩ <;>
        simp [updateVote, deleteVote, hv, hp, succeeded, hact, hlt, he, hsv]
    · refine ⟨?_, ?_, ?_, ?_⟩ <;>
        simp [updateVote, deleteVote, hv, hp, succeeded, hact, hlt, he, hsv]

/-- Witness for Claim C6: the amended theorem applied to the open example
poll and the stored alice vote with a schema-valid update. -/
theorem c6_update_retract_witness :
    (succeeded (updateVote dbWithVote 5 "v1" none none none).1 = true ↔
      ({ examplePoll with totalVotes := 1 } : Poll).isActive = true ∧
        (5 : Int) ≤ ({ examplePoll with totalVotes := 1 } : Poll).endDate ∧
        voteSchemaValid (updatedVote aliceVote none none none) = true) ∧
    (succeeded (deleteVote dbWithVote 5 "v1").1 = true ↔
      ({ examplePoll with totalVotes := 1 } : Poll).isActive = true ∧
        (5 : Int) ≤ ({ examplePoll with totalVotes := 1 } : Poll).endDate) ∧
    (succeeded (updateVote dbWithVote 5 "v1" none none none).1 = false →
      (updateVote dbWithVote 5 "v1" none none none).2 = dbWithVote) ∧
    (succeeded (deleteVote dbWithVote 5 "v1").1 = false →
      (deleteVote dbWithVote 5 "v1").2 = dbWithVote) :=
  c6_update_retract_amended dbWithVote 5 "v1" none none none aliceVote
    { examplePoll with totalVotes := 1 } rfl rfl

/-! Lemmas about the castVote phases. -/

lemma pollSaveTotal_votes (db : DB) (pid : String) (n : Nat) :
    (pollSaveTotal db pid n).votes = db.votes := by
  unfold pollSaveTotal setPoll
  cases findPoll db pid <;> rfl

lemma pollSaveTotal_petitions (db : DB) (pid : String) (n : Nat) :
    (pollSaveTotal db pid n).petitions = db.petitions := by
  unfold pollSaveTotal setPoll
  cases findPoll db pid <;> rfl

lemma findVoteByUserPoll_none_iff {db : DB} {u p : String} :
    findVoteByUserPoll db u p = none ↔
      ∀ v ∈ db.votes, ¬ (v.userId = u ∧ v.pollId = p) := by
  unfold findVoteByUserPoll
  rw [List.find?_eq_none]
  simp

lemma castVoteValidate_ok {snap : DB} {now : Int} {r : CastReq} {newVid : String}
    {poll : Poll}
    (hu : r.userId ≠ "") (hpid : r.pollId ≠ "") (hs : r.selectedOption ≠ "")
    (hfind : findPoll snap r.pollId = some poll)
    (hact : poll.isActive = true)
    (hend : now ≤ poll.endDate)
    (hopt : poll.options.any (fun o => decide (o.id = r.selectedOption)) = true)
    (hnovote : findVoteByUserPoll snap r.userId r.pollId = none) :
    castVoteValidate snap now r newVid = .ok (builtVote r newVid now) := by
  have hlt : ¬ poll.endDate < now := by omega
  simp [castVoteValidate, hu, hpid, hs, hfind, hact, hlt, hopt, hnovote]

lemma castVoteValidate_ok_inv {snap : DB} {now : Int} {r : CastReq} {newVid : String}
    {v : Vote} (h : castVoteValidate snap now r newVid = .ok v) :
    v = builtVote r newVid now ∧
    r.userId ≠ "" ∧ r.pollId ≠ "" ∧ r.selectedOption ≠ "" ∧
    ∃ poll, findPoll snap r.pollId = some poll ∧ poll.isActive = true ∧
      now ≤ poll.endDate ∧
      poll.options.any (fun o => decide (o.id = r.selectedOption)) = true ∧
      findVoteByUserPoll snap r.userId r.pollId = none := by
  unfold castVoteValidate at h
  split at h
  · cases h
  next h1 =>
    push_neg at h1
    obtain ⟨hu, hpid, hs⟩ := h1
    split at h
    · cases h
    next poll hfind =>
      split at h
      · cases h
      next hact2 =>
        split at h
        · cases h
        next hend2 =>
          split at h
          · cases h
          next hopt2 =>
            split at h
            next w hnv => cases h
            next hnv =>
              cases h
              exact ⟨rfl, hu, hpid, hs, poll, hfind, not_not.mp hact2, by omega,
                     not_not.mp hopt2, hnv⟩

lemma castVote_error_shape {db : DB} {now : Int} {r : CastReq} {newVid : String}
    {e : ApiError} (h : castVoteValidate db now r newVid = .error e) :
    castVote db now r newVid = (.error e, db) := by
  unfold castVote castVoteFrom
  rw [h]

lemma castVote_ok_shape {db : DB} {now : Int} {r : CastReq} {newVid : String}
    {v : Vote} (h : castVoteValidate db now r newVid = .ok v)
    (hsv : voteSchemaValid v = true)
    {poll : Poll} (hfind : findPoll db r.pollId = some poll) :
    castVote db now r newVid =
      (.ok v, pollSaveTotal { db with votes := db.votes ++ [v] } r.pollId
        (poll.totalVotes + 1)) := by
  obtain ⟨hv, hu, hpid, hs, poll2, hfind2, hact, hend, hopt, hnone⟩ :=
    castVoteValidate_ok_inv h
  have hins : voteStoreInsert db v = .ok { db with votes := db.votes ++ [v] } := by
    unfold voteStoreInsert
    rw [if_neg (by simp [hsv])]
    rw [if_neg]
    simp only [List.any_eq_true, not_exists, not_and]
    intro w hw
    have hnv := findVoteByUserPoll_none_iff.mp hnone w hw
    simp only [hv, builtVote, decide_eq_true_eq]
    exact fun hc => hnv hc
  unfold castVote castVoteFrom
  simp only [h, hins, hfind]

lemma castVote_invalid_shape {db : DB} {now : Int} {r : CastReq} {newVid : String}
    {v : Vote} (h : castVoteValidate db now r newVid = .ok v)
    (hsv : voteSchemaValid v = false) :
    castVote db now r newVid = (.error .serverFailure, db) := by
  have hins : voteStoreInsert db v = .error .validationError := by
    unfold voteStoreInsert
    rw [if_pos (by simp [hsv])]
  unfold castVote castVoteFrom
  simp only [h, hins]

lemma find?_replace_poll (l : List Poll) (id : String) (q0 p : Poll)
    (hfind : l.find? (fun q => decide (q.pid = id)) = some q0)
    (hid : p.pid = id) :
    (l.map (fun q => if q.pid = p.pid then p else q)).find?
      (fun q => decide (q.pid = id)) = some p := by
  induction l with
  | nil => simp at hfind
  | cons a l ih =>
    by_cases ha : a.pid = id
    · have hap : a.pid = p.pid := by rw [ha, hid]
      simp only [List.map_cons, if_pos hap]
      exact List.find?_cons_of_pos _ (by simp [hid])
    · have hap : ¬ a.pid = p.pid := by rw [hid]; exact ha
      rw [List.find?_cons_of_neg _ (by simp [ha])] at hfind
      simp only [List.map_cons, if_neg hap]
      rw [List.find?_cons_of_neg _ (by simp [ha])]
      exact ih hfind

lemma findPoll_pollSaveTotal {db : DB} {pid : String} {p : Poll} (n : Nat)
    (hfind : findPoll db pid = some p) :
    findPoll (pollSaveTotal db pid n) pid = some { p with totalVotes := n } := by
  unfold pollSaveTotal
  rw [hfind]
  have hid : ({ p with totalVotes := n } : Poll).pid = pid := (findPoll_some hfind).2
  unfold findPoll setPoll at *
  exact find?_replace_poll _ _ p _ hfind hid

lemma findVoteByUserPoll_votes_congr {db1 db2 : DB} {u p : String}
    (h : db1.votes = db2.votes) :
    findVoteByUserPoll db1 u p = findVoteByUserPoll db2 u p := by
  unfold findVoteByUserPoll
  rw [h]

lemma findVoteByUserPoll_append_self {db : DB} {u p : String} {v1 : Vote}
    (hnone : findVoteByUserPoll db u p = none)
    (hu : v1.userId = u) (hp : v1.pollId = p) :
    findVoteByUserPoll { db with votes := db.votes ++ [v1] } u p = some v1 := by
  unfold findVoteByUserPoll at *
  simp only [List.find?_append, hnone]
  simp [hu, hp]

lemma voteStoreInsert_dup {db : DB} {v w : Vote} (hsv : voteSchemaValid v = true)
    (hw : w ∈ db.votes) (hu : w.userId = v.userId) (hp : w.pollId = v.pollId) :
    voteStoreInsert db v = .error .duplicateKey := by
  unfold voteStoreInsert
  rw [if_neg (by simp [hsv])]
  rw [if_pos]
  rw [List.any_eq_true]
  exact ⟨w, hw, by simp [hu, hp]⟩

lemma castVoteFrom_dup {snap db : DB} {now : Int} {r : CastReq} {newVid : String}
    {v : Vote} (hval : castVoteValidate snap now r newVid = .ok v)
    (hdup : voteStoreInsert db v = .error .duplicateKey) :
    castVoteFrom snap db now r newVid = (.error .serverFailure, db) := by
  unfold castVoteFrom
  simp only [hval, hdup]

lemma castVoteValidate_already {snap : DB} {now : Int} {r : CastReq} {newVid : String}
    {poll : Poll} {w : Vote}
    (hu : r.userId ≠ "") (hpid : r.pollId ≠ "") (hs : r.selectedOption ≠ "")
    (hfind : findPoll snap r.pollId = some poll) (hact : poll.isActive = true)
    (hend : now ≤ poll.endDate)
    (hopt : poll.options.any (fun o => decide (o.id = r.selectedOption)) = true)
    (hfound : findVoteByUserPoll snap r.userId r.pollId = some w) :
    castVoteValidate snap now r newVid = .error .alreadyVoted := by
  have hlt : ¬ poll.endDate < now := by omega
  simp [castVoteValidate, hu, hpid, hs, hfind, hact, hlt, hopt, hfound]

lemma racedCastVotes_eq (db : DB) (now : Int) (r1 r2 : CastReq) (vid1 vid2 : String) :
    racedCastVotes db now r1 r2 vid1 vid2 =
      ((castVoteFrom db db now r1 vid1).1,
       (castVoteFrom db (castVoteFrom db db now r1 vid1).2 now r2 vid2).1,
       (castVoteFrom db (castVoteFrom db db now r1 vid1).2 now r2 vid2).2) := rfl

/-! Lemmas about the signPetition phases. -/

lemma signPetitionValidate_ok {snap : DB} {now : Int} {pid u : String} {pet : Petition}
    (hu : u ≠ "") (hfind : findPetition snap pid = some pet)
    (hact : pet.status = .active)
    (hnosig : pet.supporters.any (fun s => decide (s.userId = u)) = false) :
    signPetitionValidate snap now pid u none =
      .ok (newSupporter u now none,
           newSignatureEntry now (pet.signatures + 1),
           pet.signatures + 1) := by
  simp [signPetitionValidate, hu, hfind, hact, hnosig]

lemma signPetitionValidate_already {snap : DB} {now : Int} {pid u : String}
    {msg : Option String} {pet : Petition}
    (hu : u ≠ "") (hfind : findPetition snap pid = some pet)
    (hact : pet.status = .active)
    (hsig : pet.supporters.any (fun s => decide (s.userId = u)) = true) :
    signPetitionValidate snap now pid u msg = .error .alreadySigned := by
  simp [signPetitionValidate, hu, hfind, hact, hsig]

lemma signPetition_ok_shape {db : DB} {now : Int} {pid u : String}
    {msg : Option String} {sup : Supporter} {tl : TimelineEntry} {n : Nat}
    (hval : signPetitionValidate db now pid u msg = .ok (sup, tl, n))
    (hsup : supporterSchemaValid sup = true) :
    signPetition db now pid u msg = (.ok (), signStoreCommit db pid sup tl n) := by
  unfold signPetition signPetitionFrom
  simp only [hval]
  rw [if_neg (by simp [hsup])]

lemma signPetition_invalid_shape {db : DB} {now : Int} {pid u : String}
    {msg : Option String} {sup : Supporter} {tl : TimelineEntry} {n : Nat}
    (hval : signPetitionValidate db now pid u msg = .ok (sup, tl, n))
    (hsup : supporterSchemaValid sup = false) :
    signPetition db now pid u msg = (.error .serverFailure, db) := by
  unfold signPetition signPetitionFrom
  simp only [hval]
  rw [if_pos (by simp [hsup])]

lemma signPetitionValidate_ok_inv {snap : DB} {now : Int} {pid u : String}
    {msg : Option String} {sup : Supporter} {tl : TimelineEntry} {n : Nat}
    (h : signPetitionValidate snap now pid u msg = .ok (sup, tl, n)) :
    sup.userId = u ∧ ∃ pet, findPetition snap pid = some pet ∧
      pet.supporters.any (fun s => decide (s.userId = u)) = false := by
  unfold signPetitionValidate at h
  split at h
  · cases h
  split at h
  · cases h
  next pet hfind =>
    split at h
    · cases h
    split at h
    · cases h
    next hnosig =>
      cases h
      refine ⟨rfl, pet, hfind, ?_⟩
      revert hnosig
      cases pet.supporters.any (fun s => decide (s.userId = u)) <;> simp

lemma signPetition_error_shape {db : DB} {now : Int} {pid u : String}
    {msg : Option String} {e : ApiError}
    (hval : signPetitionValidate db now pid u msg = .error e) :
    signPetition db now pid u msg = (.error e, db) := by
  unfold signPetition signPetitionFrom
  simp only [hval]

lemma findPetition_signStoreCommit {db : DB} {pid : String} {cur : Petition}
    (hfind : findPetition db pid = some cur)
    (sup : Supporter) (tl : TimelineEntry) (n : Nat) :
    findPetition (signStoreCommit db pid sup tl n) pid =
      some (signedPetition cur sup tl n) := by
  unfold signStoreCommit
  rw [hfind]
  have hid : (signedPetition cur sup tl n).petid = pid := by
    have h2 := (findPetition_some hfind).2
    simpa [signedPetition] using h2
  unfold findPetition setPetition at *
  exact find?_replace _ _ cur _ hfind hid

lemma racedSignPetition_eq (db : DB) (now : Int) (pid u1 u2 : String) :
    racedSignPetition db now pid u1 u2 =
      ((signPetitionFrom db db now pid u1 none).1,
       (signPetitionFrom db (signPetitionFrom db db now pid u1 none).2 now pid u2 none).1,
       (signPetitionFrom db (signPetitionFrom db db now pid u1 none).2 now pid u2 none).2) := rfl

/-- Claim C5 counterexample: a vote cast at instant 10 on a poll whose
opens-at time is 50 succeeds, and a vote cast at exactly the closes-at
instant 100 of the example poll also succeeds, although the claim requires
both calls to fail with PollClosed and record no vote. -/
theorem c5_poll_window_counterexample :
    ((findPoll futureStartDb "p1").map Poll.startDate = some 50) ∧
    (10 : Int) < 50 ∧
    succeeded (castVote futureStartDb 10 exampleReq "v1").1 = true ∧
    ((findPoll exampleDb "p1").map Poll.endDate = some 100) ∧
    succeeded (castVote exampleDb 100 exampleReq "v1").1 = true :=
  ⟨rfl, by decide, rfl, rfl, rfl⟩

/-- Claim C5 (amended): castVote on an existing poll succeeds exactly when
the poll is active, now is at most closes-at (the opens-at time is never
consulted and the closes-at instant itself is still accepted), the option
is in the option set, the participant has not voted, and the built vote
passes the Vote schema validation (rating in [1,10] when present and
valid demographic enums; otherwise the save fails as the 500
serverFailure); on any failure no vote is recorded and the database is
unchanged. -/
theorem c5_poll_open_amended (db : DB) (now : Int) (r : CastReq) (newVid : String)
    (poll : Poll)
    (hu : r.userId ≠ "") (hpid : r.pollId ≠ "") (hs : r.selectedOption ≠ "")
    (hfind : findPoll db r.pollId = some poll) :
    (succeeded (castVote db now r newVid).1 = true ↔
      (poll.isActive = true ∧ now ≤ poll.endDate ∧
       poll.options.any (fun o => decide (o.id = r.selectedOption)) = true ∧
       findVoteByUserPoll db r.userId r.pollId = none ∧
       voteSchemaValid (builtVote r newVid now) = true)) ∧
    (succeeded (castVote db now r newVid).1 = false →
      (castVote db now r newVid).2 = db) := by
  cases hval : castVoteValidate db now r newVid with
  | error e =>
    rw [castVote_error_shape hval]
    constructor
    · constructor
      · intro hfalse
        simp [succeeded] at hfalse
      · rintro ⟨hact, hend, hopt, hnone, _hsv⟩
        have hok := @castVoteValidate_ok db now r newVid poll hu hpid hs hfind
          hact hend hopt hnone
        rw [hval] at hok
        cases hok
    · intro _; rfl
  | ok v =>
    obtain ⟨hv, hu2, hpid2, hs2, poll2, hfind2, hact, hend, hopt, hnone⟩ :=
      castVoteValidate_ok_inv hval
    rw [hfind] at hfind2
    obtain rfl : poll = poll2 := Option.some_inj.mp hfind2
    by_cases hsv : voteSchemaValid v = true
    · rw [castVote_ok_shape hval hsv hfind]
      have hsvb : voteSchemaValid (builtVote r newVid now) = true := by
        rw [← hv]; exact hsv
      constructor
      · simp [succeeded, hact, hend, hopt, hnone, hsvb]
      · intro hfalse
        simp [succeeded] at hfalse
    · have hsv2 : voteSchemaValid v = false := by
        revert hsv
        cases voteSchemaValid v <;> simp
      rw [castVote_invalid_shape hval hsv2]
      constructor
      · constructor
        · intro hfalse
          simp [succeeded] at hfalse
        · rintro ⟨_, _, _, _, hsvb⟩
          rw [← hv] at hsvb
          exact absurd hsvb hsv
      · intro _; rfl

/-- Witness for Claim C5: the amended characterization applied to the open
example poll at instant 5 with a schema-valid request. -/
theorem c5_poll_open_witness :
    (succeeded (castVote exampleDb 5 exampleReq "v1").1 = true ↔
      (examplePoll.isActive = true ∧ (5 : Int) ≤ examplePoll.endDate ∧
       examplePoll.options.any
         (fun o => decide (o.id = exampleReq.selectedOption)) = true ∧
       findVoteByUserPoll exampleDb exampleReq.userId exampleReq.pollId = none ∧
       voteSchemaValid (builtVote exampleReq "v1" 5) = true)) ∧
    (succeeded (castVote exampleDb 5 exampleReq "v1").1 = false →
      (castVote exampleDb 5 exampleReq "v1").2 = exampleDb) :=
  c5_poll_open_amended exampleDb 5 exampleReq "v1" examplePoll
    (by decide) (by decide) (by decide) rfl

/-- Claim C7 counterexample: updateVote with the foreign option zzz on the
open example poll succeeds and stores an option outside the option set of
the poll, refuting the preservation of the option invariant under updates;
and castVote with rating 42 — outside [1,10] — is rejected by the Vote
schema validators as the 500 serverFailure, not with the InvalidOption
response the claim requires, with no vote recorded. -/
theorem c7_option_validation_counterexample :
    succeeded (updateVote dbWithVote 5 "v1" (some "zzz") none none).1 = true ∧
    ((updateVote dbWithVote 5 "v1" (some "zzz") none none).2.votes.map
      Vote.selectedOption) = ["zzz"] ∧
    ("zzz" ∉ examplePoll.options.map PollOption.id) ∧
    ¬ ((42 : Int) ≤ 10) ∧
    (castVote exampleDb 5 { exampleReq with rating := some 42 } "v1").1
      = Except.error ApiError.serverFailure ∧
    ApiError.serverFailure ≠ ApiError.invalidOption ∧
    (castVote exampleDb 5 { exampleReq with rating := some 42 } "v1").2
      = exampleDb :=
  ⟨rfl, rfl, by decide, by decide, rfl, by decide, rfl⟩

/-- Claim C7 (amended): every vote created by castVote references an
option of its poll — castVote fails with InvalidOption when the supplied
option is not in the option set — while an out-of-range rating passes the
controller and is rejected only by the Vote schema validation inside
vote.save(), surfacing as the 500 serverFailure rather than InvalidOption,
with the database unchanged; and updateVote performs no option validation
at all, so a later update may move a stored vote outside the option
set. -/
theorem c7_cast_option_valid_amended :
    (∀ (db : DB) (now : Int) (r : CastReq) (newVid : String)
        (poll : Poll) (v : Vote),
      findPoll db r.pollId = some poll →
      (castVote db now r newVid).1 = Except.ok v →
      v.selectedOption ∈ poll.options.map PollOption.id) ∧
    (∀ (db : DB) (now : Int) (r : CastReq) (newVid : String) (v : Vote),
      castVoteValidate db now r newVid = Except.ok v →
      voteSchemaValid v = false →
      (castVote db now r newVid).1 = Except.error ApiError.serverFailure ∧
      (castVote db now r newVid).2 = db) := by
  constructor
  · intro db now r newVid poll v hfind hok
    cases hval : castVoteValidate db now r newVid with
    | error e =>
      rw [castVote_error_shape hval] at hok
      cases hok
    | ok w =>
      by_cases hsv : voteSchemaValid w = true
      · rw [castVote_ok_shape hval hsv hfind] at hok
        simp only [Except.ok.injEq] at hok
        subst hok
        obtain ⟨hw, hu2, hpid2, hs2, poll2, hfind2, hact, hend, hopt, hnone⟩ :=
          castVoteValidate_ok_inv hval
        rw [hfind] at hfind2
        obtain rfl : poll = poll2 := Option.some_inj.mp hfind2
        rw [List.any_eq_true] at hopt
        obtain ⟨o, ho, hoid⟩ := hopt
        rw [List.mem_map]
        refine ⟨o, ho, ?_⟩
        rw [hw]
        simp only [builtVote]
        exact of_decide_eq_true hoid
      · have hsv2 : voteSchemaValid w = false := by
          revert hsv
          cases voteSchemaValid w <;> simp
        rw [castVote_invalid_shape hval hsv2] at hok
        cases hok
  · intro db now r newVid v hval hsv
    rw [castVote_invalid_shape hval hsv]
    exact ⟨rfl, rfl⟩

/-- Witness for Claim C7: on the example poll, the vote built by a
successful cast references one of the options, and the cast carrying
rating 42 — although every controller check passes — is rejected as the
500 with the database unchanged. -/
theorem c7_cast_option_valid_witness :
    (builtVote exampleReq "v1" 5).selectedOption ∈
      examplePoll.options.map PollOption.id ∧
    (castVote exampleDb 5 { exampleReq with rating := some 42 } "v1").1 =
      Except.error ApiError.serverFailure ∧
    (castVote exampleDb 5 { exampleReq with rating := some 42 } "v1").2 =
      exampleDb :=
  ⟨c7_cast_option_valid_amended.1 exampleDb 5 exampleReq "v1" examplePoll
      (builtVote exampleReq "v1" 5) rfl rfl,
   c7_cast_option_valid_amended.2 exampleDb 5
      { exampleReq with rating := some 42 } "v1"
      (builtVote { exampleReq with rating := some 42 } "v1" 5) rfl rfl⟩

/-- Claim C1 counterexample: two castVote calls by the same participant on
the open example poll whose read phases both miss the other vote — the
check-then-insert race — resolve as one success and one failure, but the
failing one is detected by the DuplicateKey of the unique index during
save, which the generic catch handler reports as the serverFailure
response, not as the alreadyVoted response the claim requires. -/
theorem c1_duplicate_key_counterexample :
    succeeded (racedCastVotes exampleDb 5 exampleReq
      { exampleReq with selectedOption := "no" } "v1" "v2").1 = true ∧
    (racedCastVotes exampleDb 5 exampleReq
      { exampleReq with selectedOption := "no" } "v1" "v2").2.1 =
      Except.error ApiError.serverFailure ∧
    ApiError.serverFailure ≠ ApiError.alreadyVoted :=
  ⟨rfl, rfl, by decide⟩

/-- Claim C1 (amended): for two castVote calls with the same (participant,
poll) on an open poll, both of whose built votes pass the Vote schema
validation and whose validations both read the pre-state, exactly one
succeeds; the duplicate hits the unique-index DuplicateKey and is reported
as the generic serverFailure, while only a duplicate seen by the prior
application-level read — as in a sequential second call — fails with
alreadyVoted.  For signPetition there is no store-level constraint at all:
two raced duplicate signs both succeed, and only a sequential second call
fails with alreadySigned. -/
theorem c1_uniqueness_amended :
    (∀ (db : DB) (now : Int) (r1 r2 : CastReq) (vid1 vid2 : String) (poll : Poll),
      r1.userId = r2.userId → r1.pollId = r2.pollId →
      r1.userId ≠ "" → r1.pollId ≠ "" →
      r1.selectedOption ≠ "" → r2.selectedOption ≠ "" →
      voteSchemaValid (builtVote r1 vid1 now) = true →
      voteSchemaValid (builtVote r2 vid2 now) = true →
      findPoll db r1.pollId = some poll → poll.isActive = true →
      now ≤ poll.endDate →
      poll.options.any (fun o => decide (o.id = r1.selectedOption)) = true →
      poll.options.any (fun o => decide (o.id = r2.selectedOption)) = true →
      findVoteByUserPoll db r1.userId r1.pollId = none →
      succeeded (racedCastVotes db now r1 r2 vid1 vid2).1 = true ∧
      (racedCastVotes db now r1 r2 vid1 vid2).2.1 = .error .serverFailure ∧
      (castVote (castVote db now r1 vid1).2 now r2 vid2).1 = .error .alreadyVoted) ∧
    (∀ (db : DB) (now : Int) (pid u : String) (pet : Petition),
      u ≠ "" → findPetition db pid = some pet → pet.status = .active →
      pet.supporters.any (fun s => decide (s.userId = u)) = false →
      succeeded (racedSignPetition db now pid u u).1 = true ∧
      succeeded (racedSignPetition db now pid u u).2.1 = true ∧
      (signPetition (signPetition db now pid u none).2 now pid u none).1 =
        .error .alreadySigned) := by
  constructor
  · intro db now r1 r2 vid1 vid2 poll hequ heqp hu hpid hs1 hs2 hsv1 hsv2 hfind
      hact hend hopt1 hopt2 hnone
    have hval1 := @castVoteValidate_ok db now r1 vid1 poll hu hpid hs1 hfind
      hact hend hopt1 hnone
    have hu2 : r2.userId ≠ "" := hequ ▸ hu
    have hpid2 : r2.pollId ≠ "" := heqp ▸ hpid
    have hfind2 : findPoll db r2.pollId = some poll := heqp ▸ hfind
    have hnone2 : findVoteByUserPoll db r2.userId r2.pollId = none := by
      rw [← hequ, ← heqp]; exact hnone
    have hval2 := @castVoteValidate_ok db now r2 vid2 poll hu2 hpid2 hs2 hfind2
      hact hend hopt2 hnone2
    have hcast1 : castVoteFrom db db now r1 vid1 =
        (.ok (builtVote r1 vid1 now),
         pollSaveTotal { db with votes := db.votes ++ [builtVote r1 vid1 now] }
           r1.pollId (poll.totalVotes + 1)) := castVote_ok_shape hval1 hsv1 hfind
    have hmem : builtVote r1 vid1 now ∈
        (pollSaveTotal { db with votes := db.votes ++ [builtVote r1 vid1 now] }
          r1.pollId (poll.totalVotes + 1)).votes := by
      rw [pollSaveTotal_votes]
      simp
    have hdup : voteStoreInsert
        (pollSaveTotal { db with votes := db.votes ++ [builtVote r1 vid1 now] }
          r1.pollId (poll.totalVotes + 1)) (builtVote r2 vid2 now) =
        .error .duplicateKey :=
      voteStoreInsert_dup hsv2 hmem (by simp [builtVote, hequ])
        (by simp [builtVote, heqp])
    refine ⟨?_, ?_, ?_⟩
    · rw [racedCastVotes_eq]
      simp only [hcast1, succeeded]
    · rw [racedCastVotes_eq]
      simp only [hcast1]
      rw [castVoteFrom_dup hval2 hdup]
    · have hsh : (castVote db now r1 vid1).2 =
          pollSaveTotal { db with votes := db.votes ++ [builtVote r1 vid1 now] }
            r1.pollId (poll.totalVotes + 1) := by
        rw [castVote_ok_shape hval1 hsv1 hfind]
      rw [hsh]
      have hfp : findPoll (pollSaveTotal
          { db with votes := db.votes ++ [builtVote r1 vid1 now] }
          r1.pollId (poll.totalVotes + 1)) r2.pollId =
          some { poll with totalVotes := poll.totalVotes + 1 } := by
        rw [← heqp]
        exact findPoll_pollSaveTotal _ hfind
      have hfound : findVoteByUserPoll (pollSaveTotal
          { db with votes := db.votes ++ [builtVote r1 vid1 now] }
          r1.pollId (poll.totalVotes + 1)) r2.userId r2.pollId =
          some (builtVote r1 vid1 now) := by
        rw [findVoteByUserPoll_votes_congr (pollSaveTotal_votes _ _ _)]
        rw [← hequ, ← heqp]
        exact findVoteByUserPoll_append_self hnone rfl rfl
      have hval3 := @castVoteValidate_already _ now r2 vid2
        { poll with totalVotes := poll.totalVotes + 1 } (builtVote r1 vid1 now)
        hu2 hpid2 hs2 hfp (by simpa using hact) (by simpa using hend)
        (by simpa using hopt2) hfound
      rw [castVote_error_shape hval3]
  · intro db now pid u pet hu hfind hact hnosig
    have hval := @signPetitionValidate_ok db now pid u pet hu hfind hact hnosig
    have hsupv : supporterSchemaValid (newSupporter u now none) = true := rfl
    refine ⟨?_, ?_, ?_⟩
    · rw [racedSignPetition_eq]
      unfold signPetitionFrom
      simp [hval, hsupv, succeeded]
    · rw [racedSignPetition_eq]
      unfold signPetitionFrom
      simp [hval, hsupv, succeeded]
    · have hsh := signPetition_ok_shape hval hsupv
      rw [hsh]
      have hfind2 := findPetition_signStoreCommit hfind
        (newSupporter u now none) (newSignatureEntry now (pet.signatures + 1))
        (pet.signatures + 1)
      have hsig2 : (signedPetition pet (newSupporter u now none)
          (newSignatureEntry now (pet.signatures + 1))
          (pet.signatures + 1)).supporters.any
            (fun s => decide (s.userId = u)) = true := by
        simp [signedPetition, newSupporter]
      have hact2 : (signedPetition pet (newSupporter u now none)
          (newSignatureEntry now (pet.signatures + 1))
          (pet.signatures + 1)).status = .active := by
        simpa [signedPetition] using hact
      have hval2 := @signPetitionValidate_already _ now pid u none _ hu hfind2
        hact2 hsig2
      rw [signPetition_error_shape hval2]

/-- Witness for Claim C1: the amended theorem applied to the open example
poll with two racing yes and no casts by participant u1, and to the active
example petition signed twice by participant s1. -/
theorem c1_uniqueness_witness :
    (succeeded (racedCastVotes exampleDb 5 exampleReq
        { exampleReq with selectedOption := "no" } "v1" "v2").1 = true ∧
      (racedCastVotes exampleDb 5 exampleReq
        { exampleReq with selectedOption := "no" } "v1" "v2").2.1 =
        .error .serverFailure ∧
      (castVote (castVote exampleDb 5 exampleReq "v1").2 5
        { exampleReq with selectedOption := "no" } "v2").1 =
        .error .alreadyVoted) ∧
    (succeeded (racedSignPetition examplePetitionDb 7 "q1" "s1" "s1").1 = true ∧
      succeeded (racedSignPetition examplePetitionDb 7 "q1" "s1" "s1").2.1 = true ∧
      (signPetition (signPetition examplePetitionDb 7 "q1" "s1" none).2 7 "q1"
        "s1" none).1 = .error .alreadySigned) :=
  ⟨c1_uniqueness_amended.1 exampleDb 5 exampleReq
      { exampleReq with selectedOption := "no" } "v1" "v2" examplePoll
      rfl rfl (by decide) (by decide) (by decide) (by decide) rfl rfl rfl rfl
      (by decide) rfl rfl rfl,
   c1_uniqueness_amended.2 examplePetitionDb 7 "q1" "s1" examplePetition
      (by decide) rfl rfl rfl⟩

/-- Claim C3 counterexample: two signPetition calls by the same
participant whose read phases both precede either save — the interleaving
the check-then-insert pattern admits — both succeed, the second is not
rejected with alreadySigned, and the resulting petition holds two
supporter entries for the same participant id: no store-level constraint
guards the supporters array. -/
theorem c3_store_constraint_counterexample :
    succeeded (racedSignPetition examplePetitionDb 7 "q1" "s1" "s1").1 = true ∧
    succeeded (racedSignPetition examplePetitionDb 7 "q1" "s1" "s1").2.1 = true ∧
    (racedSignPetition examplePetitionDb 7 "q1" "s1" "s1").2.1 ≠
      Except.error ApiError.alreadySigned ∧
    ((racedSignPetition examplePetitionDb 7 "q1" "s1" "s1").2.2.petitions.map
      (fun p => p.supporters.map Supporter.userId)) = [["s1", "s1"]] :=
  ⟨rfl, rfl, fun h => Except.noConfusion h, rfl⟩

/-- Claim C3 (amended): under sequential execution every petition keeps at
most one supporter entry per participant — enforced only by the
application-level read of the supporters array, not by any store
constraint, so the raced duplicate above is possible — and a call rejected
with alreadySigned leaves the database, hence the supporters, counter and
timeline of the petition, entirely unchanged. -/
theorem c3_sign_uniqueness_amended :
    (∀ (db : DB) (now : Int) (pid u : String) (msg : Option String),
      (∀ p ∈ db.petitions, (p.supporters.map Supporter.userId).Nodup) →
      ∀ p2 ∈ (signPetition db now pid u msg).2.petitions,
        (p2.supporters.map Supporter.userId).Nodup) ∧
    (∀ (db : DB) (now : Int) (pid u : String) (msg : Option String),
      (signPetition db now pid u msg).1 = .error .alreadySigned →
      (signPetition db now pid u msg).2 = db) := by
  constructor
  · intro db now pid u msg hnd p2 hp2
    cases hval : signPetitionValidate db now pid u msg with
    | error e =>
      rw [signPetition_error_shape hval] at hp2
      exact hnd p2 hp2
    | ok t =>
      obtain ⟨sup, tl, n⟩ := t
      by_cases hsup : supporterSchemaValid sup = true
      case neg =>
        have hsup2 : supporterSchemaValid sup = false := by
          revert hsup
          cases supporterSchemaValid sup <;> simp
        rw [signPetition_invalid_shape hval hsup2] at hp2
        exact hnd p2 hp2
      rw [signPetition_ok_shape hval hsup] at hp2
      obtain ⟨hsupu, pet, hfind, hnosig⟩ := signPetitionValidate_ok_inv hval
      unfold signStoreCommit at hp2
      rw [hfind] at hp2
      unfold setPetition at hp2
      simp only [List.mem_map] at hp2
      obtain ⟨q, hq, hqe⟩ := hp2
      by_cases hqp : q.petid = (signedPetition pet sup tl n).petid
      · rw [if_pos hqp] at hqe
        subst hqe
        simp only [signedPetition, List.map_append]
        rw [List.nodup_append]
        refine ⟨hnd pet (findPetition_some hfind).1, by simp, ?_⟩
        intro a ha
        simp only [List.mem_map] at ha
        obtain ⟨s, hs, hsa⟩ := ha
        simp only [List.map_cons, List.map_nil, List.mem_cons, List.not_mem_nil,
          or_false]
        intro hau
        rw [List.any_eq_false] at hnosig
        have hns := hnosig s hs
        simp only [decide_eq_true_eq] at hns
        exact hns (by rw [hsa, hau, hsupu])
      · rw [if_neg hqp] at hqe
        subst hqe
        exact hnd q hq
  · intro db now pid u msg herr
    cases hval : signPetitionValidate db now pid u msg with
    | error e => rw [signPetition_error_shape hval]
    | ok t =>
      obtain ⟨sup, tl, n⟩ := t
      by_cases hsup : supporterSchemaValid sup = true
      · rw [signPetition_ok_shape hval hsup] at herr
        simp at herr
      · have hsup2 : supporterSchemaValid sup = false := by
          revert hsup
          cases supporterSchemaValid sup <;> simp
        rw [signPetition_invalid_shape hval hsup2] at herr
        simp at herr

/-- Witness for Claim C3: the amended theorem applied to the example
petition — the petition produced by a first signature has no duplicate
supporter, and the alreadySigned rejection of a second sequential
signature leaves the state unchanged. -/
theorem c3_sign_uniqueness_witness :
    ((signedPetition examplePetition (newSupporter "s1" 7 none)
        (newSignatureEntry 7 1) 1).supporters.map Supporter.userId).Nodup ∧
    (signPetition (signPetition examplePetitionDb 7 "q1" "s1" none).2 7 "q1"
        "s1" none).2 = (signPetition examplePetitionDb 7 "q1" "s1" none).2 :=
  ⟨c3_sign_uniqueness_amended.1 examplePetitionDb 7 "q1" "s1" none (by decide)
      (signedPetition examplePetition (newSupporter "s1" 7 none)
        (newSignatureEntry 7 1) 1) (by decide),
   c3_sign_uniqueness_amended.2 (signPetition examplePetitionDb 7 "q1" "s1" none).2
      7 "q1" "s1" none rfl⟩

/-! Lemmas for counter consistency. -/

lemma findVoteById_some {db : DB} {id : String} {v : Vote}
    (h : findVoteById db id = some v) : v ∈ db.votes ∧ v.vid = id := by
  unfold findVoteById at h
  refine ⟨List.mem_of_find?_eq_some h, ?_⟩
  have := List.find?_some h
  exact of_decide_eq_true this

lemma voteCount_votes_congr {db1 db2 : DB} (h : db1.votes = db2.votes)
    (pid : String) : voteCount db1 pid = voteCount db2 pid := by
  unfold voteCount
  rw [h]

lemma voteCount_append (db : DB) (v : Vote) (pid : String) :
    voteCount { db with votes := db.votes ++ [v] } pid =
      voteCount db pid + (if v.pollId = pid then 1 else 0) := by
  unfold voteCount
  simp only [List.filter_append, List.length_append]
  by_cases hh : v.pollId = pid <;> simp [hh]

lemma length_filter_remove (l : List Vote) (voteId : String) (vote : Vote)
    (pid : String) (hmem : vote ∈ l) (hvid : vote.vid = voteId)
    (hnd : (l.map Vote.vid).Nodup) :
    (l.filter (fun v => decide (v.pollId = pid))).length =
      ((l.filter (fun v => !decide (v.vid = voteId))).filter
        (fun v => decide (v.pollId = pid))).length +
      (if vote.pollId = pid then 1 else 0) := by
  induction l with
  | nil => cases hmem
  | cons a l ih =>
    rw [List.map_cons, List.nodup_cons] at hnd
    obtain ⟨hna, hndl⟩ := hnd
    rcases List.mem_cons.mp hmem with heq | hmeml
    · subst heq
      have hfl : l.filter (fun v => !decide (v.vid = voteId)) = l := by
        rw [List.filter_eq_self]
        intro v hv
        have hne : v.vid ≠ vote.vid := by
          intro hcontra
          exact hna (hcontra ▸ List.mem_map_of_mem Vote.vid hv)
        simp only [Bool.not_eq_true', decide_eq_false_iff_not]
        rw [← hvid]
        exact hne
      by_cases hh : vote.pollId = pid <;>
        simp [List.filter_cons, hfl, hvid, hh, -List.filter_filter, -decide_not]
    · have havid : ¬ a.vid = voteId := by
        intro hcontra
        apply hna
        rw [hcontra, ← hvid]
        exact List.mem_map_of_mem Vote.vid hmeml
      by_cases hh : a.pollId = pid
      · simp only [List.filter_cons]
        simp [havid, hh, -List.filter_filter, -decide_not]
        rw [ih hmeml hndl]
        omega
      · simp only [List.filter_cons]
        simp [havid, hh, -List.filter_filter, -decide_not]
        exact ih hmeml hndl

/-- Claim C4 counterexample: starting from the consistent example database,
the store state reached between the vote insert and the separate poll
counter save inside one castVote call has one vote row but a cached total
of zero — the counter adjustment is not in the same atomic unit as the row
insert. -/
theorem c4_atomicity_counterexample :
    ¬ (∀ (db : DB) (now : Int) (r : CastReq) (vid : String),
        Consistent db → ∀ s ∈ castVoteStates db now r vid, Consistent s) := by
  intro h
  have h2 := h exampleDb 5 exampleReq "v1" (by decide)
  revert h2
  decide

/-- Claim C4 (amended): from a consistent state, after a completed
castVote the cached totals again equal the per-poll row counts, and after
a completed deleteVote likewise provided vote ids are unique; but the
counter write is a separate store operation from the row write, so inside
an operation an inconsistent intermediate state exists. -/
theorem c4_counter_consistency_amended (db : DB) (now : Int) (r : CastReq)
    (vid voteId : String) (hcons : Consistent db) :
    Consistent (castVote db now r vid).2 ∧
    ((db.votes.map Vote.vid).Nodup → Consistent (deleteVote db now voteId).2) := by
  constructor
  · cases hval : castVoteValidate db now r vid with
    | error e =>
      rw [castVote_error_shape hval]
      exact hcons
    | ok v =>
      obtain ⟨hv, hu, hpid, hs, poll, hfind, hact, hend, hopt, hnone⟩ :=
        castVoteValidate_ok_inv hval
      by_cases hsv : voteSchemaValid v = true
      case neg =>
        have hsv2 : voteSchemaValid v = false := by
          revert hsv
          cases voteSchemaValid v <;> simp
        rw [castVote_invalid_shape hval hsv2]
        exact hcons
      rw [castVote_ok_shape hval hsv hfind]
      intro p2 hp2
      have hfind1 : findPoll { db with votes := db.votes ++ [v] } r.pollId
          = some poll := hfind
      have hvc : ∀ pid2, voteCount (pollSaveTotal
          { db with votes := db.votes ++ [v] } r.pollId (poll.totalVotes + 1)) pid2
          = voteCount db pid2 + (if v.pollId = pid2 then 1 else 0) := by
        intro pid2
        rw [voteCount_votes_congr (pollSaveTotal_votes _ _ _)]
        exact voteCount_append db v pid2
      unfold pollSaveTotal at hp2
      rw [hfind1] at hp2
      unfold setPoll at hp2
      simp only [List.mem_map] at hp2
      obtain ⟨q, hq, hqe⟩ := hp2
      have hvp : v.pollId = poll.pid := by
        rw [hv, (findPoll_some hfind).2]
        rfl
      by_cases hqp : q.pid = poll.pid
      · rw [if_pos hqp] at hqe
        subst hqe
        rw [hvc]
        have h1 := hcons poll (findPoll_some hfind).1
        simp [hvp, h1]
      · rw [if_neg hqp] at hqe
        subst hqe
        rw [hvc]
        have h0 : ¬ v.pollId = q.pid := by
          rw [hvp]
          intro hcontra
          exact hqp hcontra.symm
        simp [h0, hcons q hq]
  · intro hnd
    unfold deleteVote
    cases hvf : findVoteById db voteId with
    | none =>
      simp only [hvf]
      exact hcons
    | some vote =>
      simp only [hvf]
      cases hpf : findPoll db vote.pollId with
      | none =>
        simp only [hpf]
        exact hcons
      | some poll =>
        simp only [hpf]
        by_cases hc : ¬ poll.isActive = true ∨ now > poll.endDate
        · rw [if_pos hc]
          exact hcons
        · rw [if_neg hc]
          have hmem := (findVoteById_some hvf).1
          have hvvid := (findVoteById_some hvf).2
          have hvc : ∀ pid2, voteCount (pollSaveTotal
              { db with votes := db.votes.filter (fun v => ¬ v.vid = voteId) }
              vote.pollId (poll.totalVotes - 1)) pid2
              = voteCount db pid2 - (if vote.pollId = pid2 then 1 else 0) := by
            intro pid2
            rw [voteCount_votes_congr (pollSaveTotal_votes _ _ _)]
            have hlfr := length_filter_remove db.votes voteId vote pid2 hmem hvvid hnd
            unfold voteCount
            simp only [decide_not]
            omega
          intro p2 hp2
          have hfind1 : findPoll
              { db with votes := db.votes.filter (fun v => ¬ v.vid = voteId) }
              vote.pollId = some poll := hpf
          unfold pollSaveTotal at hp2
          rw [hfind1] at hp2
          unfold setPoll at hp2
          simp only [List.mem_map] at hp2
          obtain ⟨q, hq, hqe⟩ := hp2
          by_cases hqp : q.pid = poll.pid
          · rw [if_pos hqp] at hqe
            subst hqe
            rw [hvc]
            have h1 := hcons poll (findPoll_some hpf).1
            have h2 : vote.pollId = poll.pid := ((findPoll_some hpf).2).symm
            simp [← h2, h1]
          · rw [if_neg hqp] at hqe
            subst hqe
            rw [hvc]
            have h0 : ¬ vote.pollId = q.pid := by
              rw [← (findPoll_some hpf).2]
              intro hcontra
              exact hqp hcontra.symm
            simp [h0, hcons q hq]

/-! Lemmas for the tally percentages. -/

lemma sum_map_add {α : Type} (l : List α) (f g : α → ℚ) :
    (l.map (fun a => f a + g a)).sum = (l.map f).sum + (l.map g).sum := by
  induction l with
  | nil => simp
  | cons a l ih =>
    simp only [List.map_cons, List.sum_cons, ih]
    ring

lemma sum_map_sub {α : Type} (l : List α) (f g : α → ℚ) :
    (l.map (fun a => f a - g a)).sum = (l.map f).sum - (l.map g).sum := by
  induction l with
  | nil => simp
  | cons a l ih =>
    simp only [List.map_cons, List.sum_cons, ih]
    ring

lemma sum_abs_le (l : List ℚ) (c : ℚ) (_hc : 0 ≤ c) (h : ∀ x ∈ l, |x| ≤ c) :
    |l.sum| ≤ (l.length : ℚ) * c := by
  induction l with
  | nil => simp
  | cons a l ih =>
    simp only [List.sum_cons, List.length_cons]
    have h1 : |a + l.sum| ≤ |a| + |l.sum| := abs_add _ _
    have h2 : |a| ≤ c := h a (by simp)
    have h3 : |l.sum| ≤ (l.length : ℚ) * c := ih (fun x hx => h x (by simp [hx]))
    have h4 : ((l.length + 1 : ℕ) : ℚ) = (l.length : ℚ) + 1 := by push_cast; ring
    rw [h4]
    calc |a + l.sum| ≤ |a| + |l.sum| := h1
      _ ≤ c + (l.length : ℚ) * c := add_le_add h2 h3
      _ = ((l.length : ℚ) + 1) * c := by ring

lemma sum_indicator_unit (ids : List String) (hnd : ids.Nodup) (s : String)
    (hs : s ∈ ids) :
    (ids.map (fun i => if s = i then (1 : ℚ) else 0)).sum = 1 := by
  induction ids with
  | nil => cases hs
  | cons a ids ih =>
    rw [List.nodup_cons] at hnd
    obtain ⟨hna, hndl⟩ := hnd
    rcases List.mem_cons.mp hs with heq | hmem
    · subst heq
      have htail : (ids.map (fun i => if s = i then (1 : ℚ) else 0)).sum = 0 := by
        apply List.sum_eq_zero
        intro x hx
        simp only [List.mem_map] at hx
        obtain ⟨i, hi, hie⟩ := hx
        rw [← hie, if_neg]
        intro hcontra
        exact hna (hcontra ▸ hi)
      simp [htail]
    · have hne : s ≠ a := by
        intro hcontra
        subst hcontra
        exact hna hmem
      simp [hne, ih hndl hmem]

lemma sum_option_counts (vs : List Vote) (ids : List String) (hnd : ids.Nodup)
    (hall : ∀ v ∈ vs, v.selectedOption ∈ ids) :
    (ids.map (fun i =>
      ((vs.filter (fun v => decide (v.selectedOption = i))).length : ℚ))).sum
      = (vs.length : ℚ) := by
  induction vs with
  | nil => simp
  | cons v vs ih =>
    have hsum : ∀ i : String,
        ((((v :: vs).filter (fun w => decide (w.selectedOption = i))).length : ℚ))
        = (if v.selectedOption = i then (1 : ℚ) else 0)
          + ((vs.filter (fun w => decide (w.selectedOption = i))).length : ℚ) := by
      intro i
      rw [List.filter_cons]
      by_cases hh : v.selectedOption = i
      · simp [hh]
        ring
      · simp [hh]
    simp only [hsum]
    rw [sum_map_add]
    rw [sum_indicator_unit ids hnd v.selectedOption (hall v (by simp))]
    rw [ih (fun w hw => hall w (by simp [hw]))]
    simp only [List.length_cons]
    push_cast
    ring

lemma round2_sub_le (q : ℚ) : |round2 q - q| ≤ 1 / 200 := by
  unfold round2 jsRound
  rw [abs_le]
  have h1 : (q * 100 + 1 / 2) - 1 < (⌊q * 100 + 1 / 2⌋ : ℚ) :=
    Int.sub_one_lt_floor _
  have h2 : (⌊q * 100 + 1 / 2⌋ : ℚ) ≤ q * 100 + 1 / 2 := Int.floor_le _
  constructor <;> [linarith; linarith]

lemma round2_zero : round2 0 = 0 := by
  unfold round2 jsRound
  have h : ⌊(0 : ℚ) * 100 + 1 / 2⌋ = 0 := by
    rw [Int.floor_eq_iff]
    constructor <;> norm_num
  rw [h]
  norm_num

lemma round2_fifty : round2 (rawPercentage 1 2) = 50 := by
  have hr : rawPercentage 1 2 = 50 := by
    unfold rawPercentage
    norm_num
  rw [hr]
  unfold round2 jsRound
  have h : ⌊(50 : ℚ) * 100 + 1 / 2⌋ = 5000 := by
    rw [Int.floor_eq_iff]
    constructor <;> norm_num
  rw [h]
  norm_num

/-- Witness for Claim C4: the amended theorem applied to the consistent
database holding the alice vote — both a fresh cast and the deletion of
the stored vote restore counter consistency. -/
theorem c4_counter_consistency_witness :
    Consistent (castVote dbWithVote 5 exampleReq "v9").2 ∧
    Consistent (deleteVote dbWithVote 5 "v1").2 :=
  ⟨(c4_counter_consistency_amended dbWithVote 5 exampleReq "v9" "v1" (by decide)).1,
   (c4_counter_consistency_amended dbWithVote 5 exampleReq "v9" "v1"
      (by decide)).2 (by decide)⟩

/-- Claim C8 counterexample: in the reachable database strayDb one of the
two votes on the example poll references the foreign option zzz (as
UpdateVote can produce); the filtered total is 2 but only one vote matches
an option, so the percentages are 50 and 0 and their sum 50 deviates from
100 far beyond the rounding error bound of two rounded terms. -/
theorem c8_tally_sum_counterexample :
    ((getPollResults strayDb "p1" none none none).map
      (fun rs => (rs.map OptionResult.percentage).sum)) = some 50 ∧
    ((getPollResults strayDb "p1" none none none).map List.length) = some 2 ∧
    ¬ (|(50 : ℚ) - 100| ≤ (2 : ℚ) * (1 / 200)) := by
  refine ⟨?_, rfl, by norm_num⟩
  have h : getPollResults strayDb "p1" none none none =
      some [{ optionId := "yes", optionText := "Yes", votes := 1,
              percentage := round2 (rawPercentage 1 2) },
            { optionId := "no", optionText := "No", votes := 0,
              percentage := round2 (rawPercentage 0 2) }] := rfl
  rw [h]
  show some (round2 (rawPercentage 1 2) + (round2 (rawPercentage 0 2) + 0)) = some 50
  have h0 : rawPercentage 0 2 = 0 := by
    unfold rawPercentage
    norm_num
  rw [round2_fifty, h0, round2_zero]
  have h50 : (50 : ℚ) + (0 + 0) = 50 := by norm_num
  rw [h50]

/-- Claim C8 (amended): getPollResults returns for each option its
matching-vote count among the filtered votes and the percentage
votes/total*100 rounded half-up to two decimals; a zero filtered total
yields 0 for every option; and when the total is positive the percentages
sum to 100 up to rounding error (within one half-cent per option) provided
every filtered vote references an option of the poll — a reachable stray
vote outside the option set inflates the total only and drives the sum
below 100. -/
theorem c8_tally_amended (db : DB) (pollId : String) (fs fa fg : Option String)
    (poll : Poll) (res : List OptionResult)
    (hfind : findPoll db pollId = some poll)
    (hres : getPollResults db pollId fs fa fg = some res) :
    (∀ row ∈ res,
      row.votes = ((filteredVotes db pollId fs fa fg).filter
        (fun v => decide (v.selectedOption = row.optionId))).length ∧
      row.percentage = round2 (rawPercentage row.votes
        (filteredVotes db pollId fs fa fg).length)) ∧
    ((filteredVotes db pollId fs fa fg).length = 0 →
      ∀ row ∈ res, row.percentage = 0) ∧
    (0 < (filteredVotes db pollId fs fa fg).length →
      (poll.options.map PollOption.id).Nodup →
      (∀ v ∈ filteredVotes db pollId fs fa fg,
        v.selectedOption ∈ poll.options.map PollOption.id) →
      |(res.map OptionResult.percentage).sum - 100| ≤
        (res.length : ℚ) * (1 / 200)) := by
  unfold getPollResults at hres
  simp only [hfind, Option.some.injEq] at hres
  subst hres
  refine ⟨?_, ?_, ?_⟩
  · intro row hrow
    simp only [List.mem_map] at hrow
    obtain ⟨o, ho, hoe⟩ := hrow
    subst hoe
    exact ⟨rfl, rfl⟩
  · intro hzero row hrow
    simp only [List.mem_map] at hrow
    obtain ⟨o, ho, hoe⟩ := hrow
    subst hoe
    show round2 (rawPercentage _ (filteredVotes db pollId fs fa fg).length) = 0
    rw [hzero]
    unfold rawPercentage
    rw [if_neg (by omega)]
    exact round2_zero
  · intro hn hnodup hall
    rw [List.map_map, List.length_map]
    have hnz : ((filteredVotes db pollId fs fa fg).length : ℚ) ≠ 0 :=
      Nat.cast_ne_zero.mpr hn.ne'
    have hexact : (poll.options.map (fun o => rawPercentage
        (((filteredVotes db pollId fs fa fg).filter
          (fun v => decide (v.selectedOption = o.id))).length)
        (filteredVotes db pollId fs fa fg).length)).sum = 100 := by
      have hstep : ∀ o ∈ poll.options, rawPercentage
          (((filteredVotes db pollId fs fa fg).filter
            (fun v => decide (v.selectedOption = o.id))).length)
          (filteredVotes db pollId fs fa fg).length
          = ((((filteredVotes db pollId fs fa fg).filter
              (fun v => decide (v.selectedOption = o.id))).length : ℚ))
            * (100 / ((filteredVotes db pollId fs fa fg).length : ℚ)) := by
        intro o ho
        unfold rawPercentage
        rw [if_pos hn]
        field_simp
      rw [List.map_congr_left hstep, List.sum_map_mul_right]
      have hcnt : (poll.options.map (fun o =>
          (((filteredVotes db pollId fs fa fg).filter
            (fun v => decide (v.selectedOption = o.id))).length : ℚ))).sum
          = ((filteredVotes db pollId fs fa fg).length : ℚ) := by
        have hsc := sum_option_counts (filteredVotes db pollId fs fa fg)
          (poll.options.map PollOption.id) hnodup hall
        rw [List.map_map] at hsc
        exact hsc
      rw [hcnt]
      field_simp
    have hdiff := sum_map_sub poll.options
      (fun o => round2 (rawPercentage
        (((filteredVotes db pollId fs fa fg).filter
          (fun v => decide (v.selectedOption = o.id))).length)
        (filteredVotes db pollId fs fa fg).length))
      (fun o => rawPercentage
        (((filteredVotes db pollId fs fa fg).filter
          (fun v => decide (v.selectedOption = o.id))).length)
        (filteredVotes db pollId fs fa fg).length)
    have hb := sum_abs_le (poll.options.map
      (fun o => round2 (rawPercentage
        (((filteredVotes db pollId fs fa fg).filter
          (fun v => decide (v.selectedOption = o.id))).length)
        (filteredVotes db pollId fs fa fg).length)
        - rawPercentage
        (((filteredVotes db pollId fs fa fg).filter
          (fun v => decide (v.selectedOption = o.id))).length)
        (filteredVotes db pollId fs fa fg).length))
      (1 / 200) (by norm_num) ?hmem
    case hmem =>
      intro x hx
      simp only [List.mem_map] at hx
      obtain ⟨o, ho, hoe⟩ := hx
      rw [← hoe]
      exact round2_sub_le _
    rw [hdiff, List.length_map] at hb
    rw [← hexact]
    calc |(poll.options.map (fun o => round2 (rawPercentage
          (((filteredVotes db pollId fs fa fg).filter
            (fun v => decide (v.selectedOption = o.id))).length)
          (filteredVotes db pollId fs fa fg).length))).sum -
          (poll.options.map (fun o => rawPercentage
          (((filteredVotes db pollId fs fa fg).filter
            (fun v => decide (v.selectedOption = o.id))).length)
          (filteredVotes db pollId fs fa fg).length)).sum|
        ≤ (poll.options.length : ℚ) * (1 / 200) := hb
      _ = (poll.options.length : ℚ) * (1 / 200) := rfl

/-- Witness for Claim C8: the amended theorem applied to the example poll
with no votes — both counts are 0, both percentages are rounded zeros, and
the zero-total clause applies. -/
theorem c8_tally_witness :
    (∀ row ∈ [({ optionId := "yes", optionText := "Yes", votes := 0, percentage := round2 (rawPercentage 0 0) } : OptionResult),
        { optionId := "no", optionText := "No", votes := 0, percentage := round2 (rawPercentage 0 0) }],
      row.votes = ((filteredVotes exampleDb "p1" none none none).filter
        (fun v => decide (v.selectedOption = row.optionId))).length ∧
      row.percentage = round2 (rawPercentage row.votes
        (filteredVotes exampleDb "p1" none none none).length)) ∧
    ((filteredVotes exampleDb "p1" none none none).length = 0 →
      ∀ row ∈ [({ optionId := "yes", optionText := "Yes", votes := 0, percentage := round2 (rawPercentage 0 0) } : OptionResult),
        { optionId := "no", optionText := "No", votes := 0, percentage := round2 (rawPercentage 0 0) }],
        row.percentage = 0) ∧
    (0 < (filteredVotes exampleDb "p1" none none none).length →
      (examplePoll.options.map PollOption.id).Nodup →
      (∀ v ∈ filteredVotes exampleDb "p1" none none none,
        v.selectedOption ∈ examplePoll.options.map PollOption.id) →
      |(([({ optionId := "yes", optionText := "Yes", votes := 0, percentage := round2 (rawPercentage 0 0) } : OptionResult),
          { optionId := "no", optionText := "No", votes := 0, percentage := round2 (rawPercentage 0 0) }]).map
          OptionResult.percentage).sum - 100| ≤
        (([({ optionId := "yes", optionText := "Yes", votes := 0, percentage := round2 (rawPercentage 0 0) } : OptionResult),
          { optionId := "no", optionText := "No", votes := 0, percentage := round2 (rawPercentage 0 0) }]).length : ℚ) * (1 / 200)) :=
  c8_tally_amended exampleDb "p1" none none none examplePoll
    [{ optionId := "yes", optionText := "Yes", votes := 0, percentage := round2 (rawPercentage 0 0) },
     { optionId := "no", optionText := "No", votes := 0, percentage := round2 (rawPercentage 0 0) }] rfl rfl

end JanMat
